import Mathlib

/-
Verification development for the RustPython core-object-model case study:
the immutable byte-buffer built-in type (vm/src/obj/objbytes.rs) and the
build-time-selectable synchronization cell (common/src/cell.rs).

The embedding models the single-threaded (non-"threading") build of the
synchronization cell, the one whose behavior the single-threaded claims are
about.  Rust `panic!` outcomes (from `.unwrap()` and from `RefCell` borrow
violations) are modelled explicitly as a `panic`/`panicked` constructor,
distinct from recoverable `Err` results, because several spec sentences are
precisely about the difference between the two.
-/

set_option autoImplicit false

namespace RustPython

/-- Outcome of running a fallible Rust function whose body may also `panic!`
(via `.unwrap()` on `None`/`Err`): either a normal value, a recoverable
`Err` propagated with `?`, or a process-level panic (not a value at all). -/
inductive RustOutcome (α : Type) where
  | ok (a : α)
  | err (e : String)
  | panic
  deriving DecidableEq, Repr

/-- A raised condition handed back to the interpreter loop.  The byte-buffer
methods only ever construct type errors (`vm.new_type_error`). -/
inductive VMError where
  | typeError (msg : String)
  deriving DecidableEq, Repr

/-- A dynamically typed object as seen by a byte-buffer method through
`objtype::isinstance(b, bytes_type)`: either an instance of the bytes class
(so `get_value` can extract its `Vec<u8>` payload) or any other object.
Each object carries the string its `Display` impl renders (used by the
`format!` calls that build comparison error messages). -/
inductive PyObj where
  | bytes (value : List Nat) (display : String)
  | other (display : String)
  deriving DecidableEq, Repr

/-- The `Display` string of an object, standing in for `format!("{}", obj)`. -/
def PyObj.display : PyObj → String
  | .bytes _ d => d
  | .other d => d

/- ------------------------------------------------------------------
   objbytes.rs: comparison operators
   ------------------------------------------------------------------ -/

/-- The three-way comparison `Ord::cmp` on `u8`. -/
def u8Cmp (a b : Nat) : Ordering :=
  if a < b then .lt else if a = b then .eq else .gt

/-- `Ord for Vec<u8>` / slices in Rust: compare element by element; on the
first unequal pair that pair decides; a strict prefix is less. -/
def rustCmp : List Nat → List Nat → Ordering
  | [], [] => .eq
  | [], _ :: _ => .lt
  | _ :: _, [] => .gt
  | a :: as_, b :: bs =>
    match u8Cmp a b with
    | .eq => rustCmp as_ bs
    | o => o

/-- The body shared by the four comparison error messages in objbytes.rs:
`format!("Cannot compare {} and {} using '{}'", a, b, opShown)` where
`opShown` is the operator character sequence hard-coded in each method. -/
def cmpErrMsg (a b : PyObj) (opShown : String) : String :=
  "Cannot compare " ++ a.display ++ " and " ++ b.display ++ " using \x27" ++ opShown ++ "\x27"

/-- `PyBytesRef::eq` (`__eq__`): if the right operand is a bytes instance,
compare the two `Vec<u8>` payloads for equality; otherwise the result is
`false`.  Both branches return `Ok`. -/
def bytes_eq (a : List Nat) (b : PyObj) : Except VMError Bool :=
  match b with
  | .bytes bv _ => .ok (a == bv)
  | .other _ => .ok false

/-- `PyBytesRef::lt` (`__lt__`): `get_value(a).to_vec() < get_value(b).to_vec()`
when `b` is a bytes instance, else `Err(new_type_error(...))`.  The operator
shown in the message is the one hard-coded in the source: `<=`. -/
def bytes_lt (av : List Nat) (aObj b : PyObj) : Except VMError Bool :=
  match b with
  | .bytes bv _ => .ok (rustCmp av bv == .lt)
  | .other _ => .error (.typeError (cmpErrMsg aObj b "<="))

/-- `PyBytesRef::le` (`__le__`): `<=` on the payloads when `b` is a bytes
instance, else a type error whose message shows `<` (as in the source). -/
def bytes_le (av : List Nat) (aObj b : PyObj) : Except VMError Bool :=
  match b with
  | .bytes bv _ => .ok (!(rustCmp av bv == .gt))
  | .other _ => .error (.typeError (cmpErrMsg aObj b "<"))

/-- `PyBytesRef::gt` (`__gt__`): `>` on the payloads when `b` is a bytes
instance, else a type error whose message shows `>=` (as in the source). -/
def bytes_gt (av : List Nat) (aObj b : PyObj) : Except VMError Bool :=
  match b with
  | .bytes bv _ => .ok (rustCmp av bv == .gt)
  | .other _ => .error (.typeError (cmpErrMsg aObj b ">="))

/-- `PyBytesRef::ge` (`__ge__`): `>=` on the payloads when `b` is a bytes
instance, else a type error whose message shows `>` (as in the source). -/
def bytes_ge (av : List Nat) (aObj b : PyObj) : Except VMError Bool :=
  match b with
  | .bytes bv _ => .ok (!(rustCmp av bv == .lt))
  | .other _ => .error (.typeError (cmpErrMsg aObj b ">"))

/-- The operator a Python comparison method actually implements — the
dispatch names `__lt__`, `__le__`, `__gt__`, `__ge__` bind them in `init`. -/
inductive CmpOp where
  | lt | le | gt | ge
  deriving DecidableEq, Repr

/-- The operator token each method stands for. -/
def CmpOp.symbol : CmpOp → String
  | .lt => "<"
  | .le => "<="
  | .gt => ">"
  | .ge => ">="

/-- The operator token the source hard-codes into that method's error
message (objbytes.rs lines 122, 137, 152, 167). -/
def CmpOp.msgSymbol : CmpOp → String
  | .lt => "<="
  | .le => "<"
  | .gt => ">="
  | .ge => ">"

/-- Spec-side definition (for the refinement claim C7): byte-wise
lexicographic strict order on raw byte sequences — the empty sequence is
below any nonempty one, and otherwise the first bytes decide, ties
recursing on the tails. -/
def lexLt : List Nat → List Nat → Bool
  | _, [] => false
  | [], _ :: _ => true
  | a :: as_, b :: bs => decide (a < b) || (decide (a = b) && lexLt as_ bs)

/-- Spec-side definition (for the refinement claim C6): equality is raw-bytes
equality when the right operand is a bytes instance and `false` on any
other operand — total, with no failure case. -/
def eqSpec (a : List Nat) (b : PyObj) : Bool :=
  match b with
  | .bytes bv _ => a == bv
  | .other _ => false

/- ------------------------------------------------------------------
   objbytes.rs: construction (bytes_new)
   ------------------------------------------------------------------ -/

/-- `num_traits::ToPrimitive::to_u8` on an integer: `Some` exactly when the
value fits in `[0, 256)`. -/
def to_u8 (v : Int) : Option Nat :=
  if 0 ≤ v ∧ v < 256 then some v.toNat else none

/-- The element loop of `bytes_new`: each extracted element (already
converted to an integer by `objint::to_int`) goes through
`to_u8().unwrap()` and is pushed onto the local buffer.  An out-of-range
value makes `to_u8` return `None`, so the `.unwrap()` panics. -/
def bytes_new_loop : List Int → List Nat → RustOutcome (List Nat)
  | [], acc => .ok acc
  | v :: rest, acc =>
    match to_u8 v with
    | some b => bytes_new_loop rest (acc ++ [b])
    | none => .panic

/-- `bytes_new` (`__new__`): no value argument yields the empty buffer;
a present argument is flattened to its elements (via `extract_elements`
and `objint::to_int`, both external helpers, here assumed to have already
produced the integers) and each element passes through `to_u8().unwrap()`. -/
def bytes_new (val_option : Option (List Int)) : RustOutcome (List Nat) :=
  match val_option with
  | some elements => bytes_new_loop elements []
  | none => .ok []

/- ------------------------------------------------------------------
   objbytes.rs: hash
   ------------------------------------------------------------------ -/

/-- A byte-buffer object as a handle: a reference identity (the heap
address of the `PyObject`) plus the immutable `Vec<u8>` payload that
`get_value` extracts. -/
structure PyBytesObj where
  refId : Nat
  value : List Nat
  deriving DecidableEq, Repr

/-- One mixing step of the hasher model.  The real
`std::collections::hash_map::DefaultHasher::new()` is SipHash-1-3 with
fixed zero keys — external std code; what the embedding preserves is
exactly what `PyBytesRef::hash` relies on: the state transition is a
deterministic pure function, untouched by any per-object or per-call
randomness. -/
def hasherWrite (st b : Nat) : Nat :=
  (st * 1099511628211 + b) % (2 ^ 64)

/-- `Hash for [u8]` feeds the length and then the raw bytes into the
hasher; `finish` reads the final state.  Deterministic model of that
pipeline starting from `DefaultHasher::new()`'s fixed initial state. -/
def defaultHasherRun (data : List Nat) : Nat :=
  data.foldl hasherWrite (hasherWrite 14695981039346656037 data.length)

/-- `PyBytesRef::hash` (`__hash__`): create a fresh `DefaultHasher`, feed it
`get_value(zelf)` — the raw byte payload and nothing else — and finish. -/
def bytes_hash (zelf : PyBytesObj) : Nat :=
  defaultHasherRun zelf.value

/- ------------------------------------------------------------------
   objbytes.rs: repr
   ------------------------------------------------------------------ -/

/-- Is `b` a UTF-8 continuation byte (`0x80..=0xBF`)? -/
def utf8Cont (b : Nat) : Bool :=
  decide (0x80 ≤ b) && decide (b ≤ 0xBF)

/-- The validity check performed by `String::from_utf8`: standard UTF-8,
rejecting overlong encodings, surrogates and code points above `0x10FFFF`. -/
def utf8Valid : List Nat → Bool
  | [] => true
  | b :: rest =>
    if b ≤ 0x7F then
      utf8Valid rest
    else if 0xC2 ≤ b ∧ b ≤ 0xDF then
      match rest with
      | b2 :: r => utf8Cont b2 && utf8Valid r
      | [] => false
    else if 0xE0 ≤ b ∧ b ≤ 0xEF then
      match rest with
      | b2 :: b3 :: r =>
        (if b = 0xE0 then decide (0xA0 ≤ b2) && decide (b2 ≤ 0xBF)
         else if b = 0xED then decide (0x80 ≤ b2) && decide (b2 ≤ 0x9F)
         else utf8Cont b2) && utf8Cont b3 && utf8Valid r
      | _ => false
    else if 0xF0 ≤ b ∧ b ≤ 0xF4 then
      match rest with
      | b2 :: b3 :: b4 :: r =>
        (if b = 0xF0 then decide (0x90 ≤ b2) && decide (b2 ≤ 0xBF)
         else if b = 0xF4 then decide (0x80 ≤ b2) && decide (b2 ≤ 0x8F)
         else utf8Cont b2) && utf8Cont b3 && utf8Cont b4 && utf8Valid r
      | _ => false
    else false

/-- `PyBytesRef::repr` (`__repr__`): `String::from_utf8(value).unwrap()`
then `format!("b'{}'", data)`.  Text is kept at the byte level: a Rust
`String` is its UTF-8 byte vector, so a successful decode leaves the bytes
unchanged, and the rendered form is `b` `'` (bytes 98, 39), the payload
bytes, and a closing `'` (39).  An invalid payload makes `from_utf8`
return `Err`, so the `.unwrap()` panics. -/
def bytes_repr (value : List Nat) : RustOutcome (List Nat) :=
  if utf8Valid value then .ok ([98, 39] ++ value ++ [39]) else .panic

/-- The literal byte content between the quotes of a rendered
representation `b'...'`: drop the `b` and the opening quote, then the
closing quote. -/
def reprContent (r : List Nat) : List Nat :=
  (r.drop 2).dropLast

/- ------------------------------------------------------------------
   common/src/cell.rs, non-"threading" build: RefCell-backed cells
   ------------------------------------------------------------------ -/

/-- The borrow flag of a `std::cell::RefCell`: unborrowed, shared-borrowed
by `n` live `Ref` guards, or exclusively borrowed by one live `RefMut`. -/
inductive BorrowFlag where
  | unused
  | reading (n : Nat)
  | writing
  deriving DecidableEq, Repr

/-- A `RefCell<T>`: the stored value and the borrow flag. -/
structure RefCellSt (α : Type) where
  value : α
  flag : BorrowFlag

/-- Outcome of a guard acquisition: the granted guard, or the
`BorrowError`/`BorrowMutError` panic that `borrow()`/`borrow_mut()` raise
on a conflict — a panic, not a returned value; the acquisition functions
have no `Result` in their signatures. -/
inductive CellOutcome (α : Type) where
  | acquired (g : α)
  | panicked

/-- `RefCell::borrow_mut`: grants the exclusive guard only when no guard is
live, otherwise panics.  The guard is modelled by what it gives access to —
the stored value (its `Deref`/`DerefMut` target) — plus the cell as it
stands while the guard is alive. -/
def RefCellSt.borrow_mut {α : Type} (c : RefCellSt α) : CellOutcome (α × RefCellSt α) :=
  match c.flag with
  | .unused => .acquired (c.value, { c with flag := .writing })
  | _ => .panicked

/-- `RefCell::borrow`: grants a shared guard while no exclusive guard is
live, otherwise panics. -/
def RefCellSt.borrow {α : Type} (c : RefCellSt α) : CellOutcome (α × RefCellSt α) :=
  match c.flag with
  | .unused => .acquired (c.value, { c with flag := .reading 1 })
  | .reading n => .acquired (c.value, { c with flag := .reading (n + 1) })
  | .writing => .panicked

/-- `PyMutex<T>` in the non-"threading" build: a transparent wrapper around
`RefCell<T>` (`MutexInner<T> = RefCell<T>`). -/
structure PyMutex (α : Type) where
  cell : RefCellSt α

/-- `PyMutex::new` — `new_mutex` is `RefCell::new`, storing the value
unborrowed. -/
def PyMutex.new {α : Type} (v : α) : PyMutex α :=
  ⟨⟨v, .unused⟩⟩

/-- `PyMutex::lock` — `lock_mutex` is `RefCell::borrow_mut`; the
`PyMutexGuard` derefs to the stored value. -/
def PyMutex.lock {α : Type} (m : PyMutex α) : CellOutcome (α × PyMutex α) :=
  match m.cell.borrow_mut with
  | .acquired (v, c) => .acquired (v, ⟨c⟩)
  | .panicked => .panicked

/-- `PyRwLock<T>` in the non-"threading" build: also a transparent wrapper
around `RefCell<T>` (`RwLockInner<T> = RefCell<T>`). -/
structure PyRwLock (α : Type) where
  cell : RefCellSt α

/-- `PyRwLock::new` — `new_rwlock` is `RefCell::new`. -/
def PyRwLock.new {α : Type} (v : α) : PyRwLock α :=
  ⟨⟨v, .unused⟩⟩

/-- `PyRwLock::read` — `read_rwlock` is `RefCell::borrow`; the read guard
derefs to the stored value. -/
def PyRwLock.read {α : Type} (m : PyRwLock α) : CellOutcome (α × PyRwLock α) :=
  match m.cell.borrow with
  | .acquired (v, c) => .acquired (v, ⟨c⟩)
  | .panicked => .panicked

/-- `PyRwLock::write` — `write_rwlock` is `RefCell::borrow_mut`; the write
guard derefs to the stored value. -/
def PyRwLock.write {α : Type} (m : PyRwLock α) : CellOutcome (α × PyRwLock α) :=
  match m.cell.borrow_mut with
  | .acquired (v, c) => .acquired (v, ⟨c⟩)
  | .panicked => .panicked

/-- Does the flag witness a live guard (shared or exclusive)?  `reading n`
stands for `n ≥ 1` live shared guards — `borrow` never produces
`reading 0`. -/
def BorrowFlag.guardAlive : BorrowFlag → Bool
  | .unused => false
  | .reading _ => true
  | .writing => true

/- ------------------------------------------------------------------
   objbytes.rs: iteration (bytes_iter and the iterator protocol)
   ------------------------------------------------------------------ -/

/-- A store of `Cell<usize>` cells, addressed by allocation order.  Each
call to `Cell::new(0)` allocates a fresh cell; reads and writes go through
the cell id, so two iterators interfere exactly when they share a cell. -/
structure CellStore where
  cells : List Nat

/-- Allocate a fresh cell holding `v`; its id is the previous cell count. -/
def CellStore.alloc (st : CellStore) (v : Nat) : Nat × CellStore :=
  (st.cells.length, ⟨st.cells ++ [v]⟩)

/-- `Cell::get` on the cell with id `i`. -/
def CellStore.get (st : CellStore) (i : Nat) : Nat :=
  st.cells.getD i 0

/-- `Cell::set` on the cell with id `i`. -/
def CellStore.setCell (st : CellStore) (i v : Nat) : CellStore :=
  ⟨st.cells.set i v⟩

/-- `PyIteratorValue` as built by `PyBytesRef::iter`: the id of its own
`Cell<usize>` cursor, and the iterated byte buffer (the handle stored in
`iterated_obj`, here its byte payload). -/
structure PyIteratorValue where
  position : Nat
  iterated_obj : List Nat
  deriving DecidableEq, Repr

/-- `PyBytesRef::iter` (`__iter__`): build a `PyIteratorValue` whose
`position` is a freshly allocated `Cell::new(0)` and whose `iterated_obj`
is the receiver. -/
def bytes_iter (obj : List Nat) (st : CellStore) : PyIteratorValue × CellStore :=
  let a := st.alloc 0
  (⟨a.1, obj⟩, a.2)

/-- Modelled from the spec: the iterator protocol's advance step is not
among the provided sources (only the `PyIteratorValue` construction is);
per §4.4, "advancing increments the cursor and yields the byte at that
position until the cursor reaches the buffer length, at which point the
sequence is exhausted". -/
def iterNext (it : PyIteratorValue) (st : CellStore) : Option Nat × CellStore :=
  let pos := st.get it.position
  if pos < it.iterated_obj.length then
    (some (it.iterated_obj.getD pos 0), st.setCell it.position (pos + 1))
  else
    (none, st)

/-- Drive `iterNext` up to `fuel` times, collecting the yielded bytes in
order and returning the final store. -/
def iterCollect : Nat → PyIteratorValue → CellStore → List Nat × CellStore
  | 0, _, st => ([], st)
  | fuel + 1, it, st =>
    match iterNext it st with
    | (none, st2) => ([], st2)
    | (some v, st2) =>
      let r := iterCollect fuel it st2
      (v :: r.1, r.2)

/- ==================================================================
   Theorems
   ================================================================== -/

theorem obeq_ll : (Ordering.lt == Ordering.lt) = true := rfl

theorem obeq_le_ : (Ordering.lt == Ordering.eq) = false := rfl

theorem obeq_lg : (Ordering.lt == Ordering.gt) = false := rfl

theorem obeq_el : (Ordering.eq == Ordering.lt) = false := rfl

theorem obeq_ee : (Ordering.eq == Ordering.eq) = true := rfl

theorem obeq_eg : (Ordering.eq == Ordering.gt) = false := rfl

theorem obeq_gl : (Ordering.gt == Ordering.lt) = false := rfl

theorem obeq_ge_ : (Ordering.gt == Ordering.eq) = false := rfl

theorem obeq_gg : (Ordering.gt == Ordering.gt) = true := rfl

theorem rustCmp_beq_lt : ∀ (a b : List Nat), (rustCmp a b == Ordering.lt) = lexLt a b := by
  intro a
  induction a with
  | nil => intro b; cases b <;> rfl
  | cons x xs ih =>
    intro b
    cases b with
    | nil => rfl
    | cons y ys =>
      rcases Nat.lt_trichotomy x y with h | h | h
      · have hne : x ≠ y := Nat.ne_of_lt h
        simp [rustCmp, lexLt, u8Cmp, h, hne, obeq_ll]
      · subst h
        simp [rustCmp, lexLt, u8Cmp, ih]
      · have hne : x ≠ y := Ne.symm (Nat.ne_of_lt h)
        have hnlt : ¬ x < y := by omega
        simp [rustCmp, lexLt, u8Cmp, hnlt, hne, obeq_gl]

theorem rustCmp_beq_gt : ∀ (a b : List Nat), (rustCmp a b == Ordering.gt) = lexLt b a := by
  intro a
  induction a with
  | nil => intro b; cases b <;> rfl
  | cons x xs ih =>
    intro b
    cases b with
    | nil => rfl
    | cons y ys =>
      rcases Nat.lt_trichotomy x y with h | h | h
      · have hne : y ≠ x := Ne.symm (Nat.ne_of_lt h)
        have hnlt : ¬ y < x := by omega
        simp [rustCmp, lexLt, u8Cmp, h, hne, hnlt, obeq_lg]
      · subst h
        simp [rustCmp, lexLt, u8Cmp, ih]
      · have hne : x ≠ y := Ne.symm (Nat.ne_of_lt h)
        have hnlt : ¬ x < y := by omega
        simp [rustCmp, lexLt, u8Cmp, hnlt, hne, h, obeq_gg]

theorem rustCmp_beq_eq : ∀ (a b : List Nat), (rustCmp a b == Ordering.eq) = (a == b) := by
  intro a
  induction a with
  | nil => intro b; cases b <;> rfl
  | cons x xs ih =>
    intro b
    cases b with
    | nil => rfl
    | cons y ys =>
      rcases Nat.lt_trichotomy x y with h | h | h
      · have hne : x ≠ y := Nat.ne_of_lt h
        have hbe : (x == y) = false := beq_eq_false_iff_ne.mpr hne
        simp [rustCmp, u8Cmp, h, hne, hbe, obeq_le_]
      · subst h
        simp [rustCmp, u8Cmp, ih]
      · have hne : x ≠ y := Ne.symm (Nat.ne_of_lt h)
        have hbe : (x == y) = false := beq_eq_false_iff_ne.mpr hne
        have hnlt : ¬ x < y := by omega
        simp [rustCmp, u8Cmp, hnlt, hne, hbe, obeq_ge_]

theorem rustCmp_not_gt : ∀ (a b : List Nat), (!(rustCmp a b == Ordering.gt)) = (lexLt a b || a == b) := by
  intro a b
  have hlt := rustCmp_beq_lt a b
  have hgt := rustCmp_beq_gt a b
  have heq := rustCmp_beq_eq a b
  cases hc : rustCmp a b <;> rw [hc] at hlt hgt heq
  · have h1 : lexLt a b = true := hlt.symm
    rw [h1]
    rfl
  · have h2 : (a == b) = true := heq.symm
    rw [h2, Bool.or_true]
    rfl
  · have h1 : lexLt a b = false := hlt.symm
    have h2 : (a == b) = false := heq.symm
    rw [h1, h2]
    rfl

theorem rustCmp_not_lt : ∀ (a b : List Nat), (!(rustCmp a b == Ordering.lt)) = (lexLt b a || a == b) := by
  intro a b
  have hlt := rustCmp_beq_lt a b
  have hgt := rustCmp_beq_gt a b
  have heq := rustCmp_beq_eq a b
  cases hc : rustCmp a b <;> rw [hc] at hlt hgt heq
  · have h1 : lexLt b a = false := hgt.symm
    have h2 : (a == b) = false := heq.symm
    rw [h1, h2]
    rfl
  · have h2 : (a == b) = true := heq.symm
    rw [h2, Bool.or_true]
    rfl
  · have h1 : lexLt b a = true := hgt.symm
    rw [h1]
    rfl

theorem getD_set_self : ∀ (l : List Nat) (i v : Nat), i < l.length → (l.set i v).getD i 0 = v
  | [], i, _, h => absurd h (by simp)
  | _ :: _, 0, _, _ => rfl
  | _ :: l, i + 1, v, h => getD_set_self l i v (Nat.lt_of_succ_lt_succ h)

theorem getD_set_other : ∀ (l : List Nat) (i j v : Nat), i ≠ j → (l.set i v).getD j 0 = l.getD j 0
  | [], _, _, _, _ => rfl
  | _ :: _, 0, 0, _, h => absurd rfl h
  | _ :: _, 0, _ + 1, _, _ => rfl
  | _ :: _, _ + 1, 0, _, _ => rfl
  | _ :: l, i + 1, j + 1, v, h =>
    getD_set_other l i j v (fun e => h (congrArg Nat.succ e))

theorem getD_append_length : ∀ (l : List Nat) (v : Nat), (l ++ [v]).getD l.length 0 = v
  | [], _ => rfl
  | _ :: l, v => getD_append_length l v

theorem getD_append_lt : ∀ (l l2 : List Nat) (i : Nat), i < l.length → (l ++ l2).getD i 0 = l.getD i 0
  | [], _, i, h => absurd h (by simp)
  | _ :: _, _, 0, _ => rfl
  | _ :: l, l2, i + 1, h => getD_append_lt l l2 i (Nat.lt_of_succ_lt_succ h)

theorem CellStore.get_setCell_self (st : CellStore) (i v : Nat) (h : i < st.cells.length) :
    (st.setCell i v).get i = v :=
  getD_set_self st.cells i v h

theorem CellStore.get_setCell_other (st : CellStore) (i j v : Nat) (h : i ≠ j) :
    (st.setCell i v).get j = st.get j :=
  getD_set_other st.cells i j v h

theorem CellStore.length_setCell (st : CellStore) (i v : Nat) :
    (st.setCell i v).cells.length = st.cells.length := by
  simp [CellStore.setCell]

/-- Driving a fresh-cursor iterator: if the iterator's cell currently reads
`p`, collecting with enough fuel yields exactly the bytes from index `p` on,
leaves the cursor at `max p length` (so a cursor started at `0` ends at the
buffer length), keeps the store's shape, and never touches any other cell. -/
theorem iterCollect_spec : ∀ (fuel : Nat) (obj : List Nat) (cid p : Nat) (st : CellStore),
    cid < st.cells.length → st.get cid = p → obj.length ≤ p + fuel →
    (iterCollect fuel ⟨cid, obj⟩ st).1 = obj.drop p ∧
    ((iterCollect fuel ⟨cid, obj⟩ st).2).cells.length = st.cells.length ∧
    (iterCollect fuel ⟨cid, obj⟩ st).2.get cid = max p obj.length ∧
    (∀ j, j ≠ cid → (iterCollect fuel ⟨cid, obj⟩ st).2.get j = st.get j) := by
  intro fuel
  induction fuel with
  | zero =>
    intro obj cid p st hcid hp hfuel
    refine ⟨?_, rfl, ?_, fun j hj => rfl⟩
    · rw [iterCollect]
      exact (List.drop_eq_nil_of_le (by omega)).symm
    · rw [iterCollect]
      simpa [hp] using by omega
  | succ n ih =>
    intro obj cid p st hcid hp hfuel
    by_cases hlt : p < obj.length
    · have hstep : iterNext ⟨cid, obj⟩ st =
          (some (obj.getD p 0), st.setCell cid (p + 1)) := by
        simp [iterNext, hp, hlt]
      have hcid2 : cid < (st.setCell cid (p + 1)).cells.length := by
        rw [CellStore.length_setCell]; exact hcid
      have hp2 : (st.setCell cid (p + 1)).get cid = p + 1 :=
        CellStore.get_setCell_self st cid (p + 1) hcid
      have hfuel2 : obj.length ≤ (p + 1) + n := by omega
      obtain ⟨ih1, ih2, ih3, ih4⟩ := ih obj cid (p + 1) (st.setCell cid (p + 1)) hcid2 hp2 hfuel2
      rw [iterCollect, hstep]
      refine ⟨?_, ?_, ?_, ?_⟩
      · simp only [ih1]
        rw [List.drop_eq_getElem_cons hlt]
        congr 1
        exact List.getD_eq_getElem obj 0 hlt
      · rw [ih2, CellStore.length_setCell]
      · rw [ih3]
        omega
      · intro j hj
        rw [ih4 j hj, CellStore.get_setCell_other st cid j (p + 1) (fun e => hj e.symm)]
    · have hstep : iterNext ⟨cid, obj⟩ st = (none, st) := by
        simp [iterNext, hp, hlt]
      rw [iterCollect, hstep]
      refine ⟨(List.drop_eq_nil_of_le (by omega)).symm, rfl, ?_, fun j hj => rfl⟩
      rw [hp]
      omega

/-- C1: applying each of the four ordering methods to a non-bytes right
operand fails with a type error, but the operator named in the message is
not the operator that was attempted: `__lt__` says `<=`, `__le__` says `<`,
`__gt__` says `>=` and `__ge__` says `>` — each method's message names a
different operator than its own. -/
theorem bytes_ordering_error_names_wrong_operator :
    (bytes_lt [] (PyObj.bytes [] "b\x27\x27") (PyObj.other "1") =
      Except.error (VMError.typeError
        (cmpErrMsg (PyObj.bytes [] "b\x27\x27") (PyObj.other "1") CmpOp.lt.msgSymbol))) ∧
    (bytes_le [] (PyObj.bytes [] "b\x27\x27") (PyObj.other "1") =
      Except.error (VMError.typeError
        (cmpErrMsg (PyObj.bytes [] "b\x27\x27") (PyObj.other "1") CmpOp.le.msgSymbol))) ∧
    (bytes_gt [] (PyObj.bytes [] "b\x27\x27") (PyObj.other "1") =
      Except.error (VMError.typeError
        (cmpErrMsg (PyObj.bytes [] "b\x27\x27") (PyObj.other "1") CmpOp.gt.msgSymbol))) ∧
    (bytes_ge [] (PyObj.bytes [] "b\x27\x27") (PyObj.other "1") =
      Except.error (VMError.typeError
        (cmpErrMsg (PyObj.bytes [] "b\x27\x27") (PyObj.other "1") CmpOp.ge.msgSymbol))) ∧
    CmpOp.lt.msgSymbol ≠ CmpOp.lt.symbol ∧
    CmpOp.le.msgSymbol ≠ CmpOp.le.symbol ∧
    CmpOp.gt.msgSymbol ≠ CmpOp.gt.symbol ∧
    CmpOp.ge.msgSymbol ≠ CmpOp.ge.symbol :=
  ⟨rfl, rfl, rfl, rfl, by decide, by decide, by decide, by decide⟩

/-- C2: construction with an element outside `[0, 256)` reaches
`to_u8().unwrap()` on `None` and panics — a process abort, not the
recoverable ConstructionError result the claim requires — while
zero-argument construction (and in-range construction) succeeds. -/
theorem bytes_new_out_of_range_panics :
    bytes_new (some [256]) = RustOutcome.panic ∧
    bytes_new (some [-1]) = RustOutcome.panic ∧
    bytes_new none = RustOutcome.ok [] ∧
    bytes_new (some []) = RustOutcome.ok [] ∧
    bytes_new (some [104, 105]) = RustOutcome.ok [104, 105] := by
  refine ⟨?_, ?_, rfl, rfl, ?_⟩ <;> decide

/-- C3 counterexample: in the single-threaded build, acquiring an exclusive
guard while a guard is alive does not produce any recoverable
result-or-failure value — `lock`/`write` go through `RefCell::borrow_mut`,
whose conflict outcome is the `BorrowMutError` panic (`panicked`), and
their return type has no error channel at all.  Concretely: lock a fresh
mutex (guard alive, cell flag `writing`), lock again → panic; take a read
guard on a fresh rwlock (flag `reading 1`), ask for the write guard →
panic. -/
theorem conflicting_exclusive_acquire_panics_counterexample :
    (PyMutex.new (0 : Nat)).lock = CellOutcome.acquired (0, ⟨⟨0, BorrowFlag.writing⟩⟩) ∧
    (⟨⟨(0 : Nat), BorrowFlag.writing⟩⟩ : PyMutex Nat).lock = CellOutcome.panicked ∧
    (PyRwLock.new (0 : Nat)).read = CellOutcome.acquired (0, ⟨⟨0, BorrowFlag.reading 1⟩⟩) ∧
    (⟨⟨(0 : Nat), BorrowFlag.reading 1⟩⟩ : PyRwLock Nat).write = CellOutcome.panicked ∧
    (⟨⟨(0 : Nat), BorrowFlag.writing⟩⟩ : PyMutex Nat).lock ≠
      CellOutcome.acquired (0, ⟨⟨0, BorrowFlag.writing⟩⟩) :=
  ⟨rfl, rfl, rfl, rfl, fun h => CellOutcome.noConfusion h⟩

/-- C3 (amended): in the single-threaded build, acquiring an exclusive
guard (mutex `lock` or rwlock `write`) while any shared or exclusive guard
on the same cell is alive is detected immediately and fails fast with the
`RefCell` borrow-conflict panic; access is never silently granted, but the
conflict is a panic, not a recoverable result value. -/
theorem single_threaded_conflicting_exclusive_acquire_panics
    (α : Type) (m : PyMutex α) (r : PyRwLock α)
    (hm : m.cell.flag.guardAlive = true) (hr : r.cell.flag.guardAlive = true) :
    m.lock = CellOutcome.panicked ∧ r.write = CellOutcome.panicked := by
  constructor
  · obtain ⟨⟨v, flag⟩⟩ := m
    cases flag with
    | unused => simp [BorrowFlag.guardAlive] at hm
    | reading n => rfl
    | writing => rfl
  · obtain ⟨⟨v, flag⟩⟩ := r
    cases flag with
    | unused => simp [BorrowFlag.guardAlive] at hr
    | reading n => rfl
    | writing => rfl

/-- C3 witness: the amended theorem applied at a mutex whose cell holds a
live exclusive guard and a rwlock whose cell holds one live shared guard. -/
theorem single_threaded_conflicting_exclusive_acquire_panics_witness :
    ((⟨⟨(0 : Nat), BorrowFlag.writing⟩⟩ : PyMutex Nat).cell.flag.guardAlive = true) ∧
    ((⟨⟨(0 : Nat), BorrowFlag.reading 1⟩⟩ : PyRwLock Nat).cell.flag.guardAlive = true) ∧
    ((⟨⟨(0 : Nat), BorrowFlag.writing⟩⟩ : PyMutex Nat).lock = CellOutcome.panicked ∧
     (⟨⟨(0 : Nat), BorrowFlag.reading 1⟩⟩ : PyRwLock Nat).write = CellOutcome.panicked) :=
  ⟨rfl, rfl,
    single_threaded_conflicting_exclusive_acquire_panics Nat
      ⟨⟨0, BorrowFlag.writing⟩⟩ ⟨⟨0, BorrowFlag.reading 1⟩⟩ rfl rfl⟩

/-- C4: the byte sequence `[255]` is not valid UTF-8, is accepted by
construction, and its representation goes through
`String::from_utf8(...).unwrap()`, which panics — there is no clean
recoverable failure path, contradicting the claim (the spec itself flags
this unwrap as a gap in §7). -/
theorem bytes_repr_invalid_utf8_panics :
    utf8Valid [255] = false ∧
    bytes_new (some [255]) = RustOutcome.ok [255] ∧
    bytes_repr [255] = RustOutcome.panic := by
  refine ⟨?_, ?_, ?_⟩ <;> decide

/-- C5: for a buffer whose bytes are valid UTF-8, `repr` yields the quoted
form `b` `'` payload `'`; stripping the `b` and the two quotes recovers
exactly the original byte sequence (repr/decode round-trip), and the buffer
`[104, 105]` renders as the bytes of the text `b'hi'`. -/
theorem bytes_repr_roundtrip (s : List Nat) (h : utf8Valid s = true) :
    bytes_repr s = RustOutcome.ok ([98, 39] ++ s ++ [39]) ∧
    reprContent ([98, 39] ++ s ++ [39]) = s ∧
    bytes_repr [104, 105] = RustOutcome.ok [98, 39, 104, 105, 39] := by
  refine ⟨?_, ?_, rfl⟩
  · simp [bytes_repr, h]
  · simp [reprContent]

/-- C5 witness: the round-trip theorem applied at the buffer `[104, 105]`
(the text `hi`). -/
theorem bytes_repr_roundtrip_witness :
    utf8Valid [104, 105] = true ∧
    (bytes_repr [104, 105] = RustOutcome.ok ([98, 39] ++ [104, 105] ++ [39]) ∧
     reprContent ([98, 39] ++ [104, 105] ++ [39]) = [104, 105] ∧
     bytes_repr [104, 105] = RustOutcome.ok [98, 39, 104, 105, 39]) :=
  ⟨by decide, bytes_repr_roundtrip [104, 105] (by decide)⟩

/-- C6: equality on a byte-buffer receiver is total — it always returns
`Ok` of a boolean, namely raw-bytes equality when the right operand is a
bytes instance and `false` (never an error) on any other operand. -/
theorem bytes_eq_total_matches_raw_equality :
    ∀ (a : List Nat) (b : PyObj), bytes_eq a b = Except.ok (eqSpec a b) := by
  intro a b
  cases b <;> rfl

/-- C7: on two byte-buffer operands each of the four ordering methods
returns `Ok` of exactly the byte-wise lexicographic comparison of the raw
sequences: `lt` is strict lexicographic order, `le` adds equality, and
`gt`/`ge` are their mirror images. -/
theorem bytes_ordering_matches_lexicographic :
    ∀ (av bv : List Nat) (aObj : PyObj) (d : String),
      bytes_lt av aObj (PyObj.bytes bv d) = Except.ok (lexLt av bv) ∧
      bytes_le av aObj (PyObj.bytes bv d) = Except.ok (lexLt av bv || av == bv) ∧
      bytes_gt av aObj (PyObj.bytes bv d) = Except.ok (lexLt bv av) ∧
      bytes_ge av aObj (PyObj.bytes bv d) = Except.ok (lexLt bv av || av == bv) := by
  intro av bv aObj d
  exact ⟨congrArg Except.ok (rustCmp_beq_lt av bv),
         congrArg Except.ok (rustCmp_not_gt av bv),
         congrArg Except.ok (rustCmp_beq_gt av bv),
         congrArg Except.ok (rustCmp_not_lt av bv)⟩

/-- C8: the hash of a byte-buffer object is computed from its raw byte
content alone (a fresh deterministic hasher is fed only `get_value`), so
two objects with equal content — whatever their identities — hash equal
within a run. -/
theorem bytes_hash_content_only (o1 o2 : PyBytesObj) (h : o1.value = o2.value) :
    bytes_hash o1 = bytes_hash o2 := by
  simp [bytes_hash, h]

/-- C8 witness: two distinct handles (`refId` 0 and 7) over the same
content `[104, 105]` hash equal. -/
theorem bytes_hash_content_only_witness :
    (PyBytesObj.mk 0 [104, 105]).value = (PyBytesObj.mk 7 [104, 105]).value ∧
    bytes_hash (PyBytesObj.mk 0 [104, 105]) = bytes_hash (PyBytesObj.mk 7 [104, 105]) :=
  ⟨rfl, bytes_hash_content_only (PyBytesObj.mk 0 [104, 105]) (PyBytesObj.mk 7 [104, 105]) rfl⟩

/-- C10: constructing a cell from `v` and dereferencing the guard obtained
from exclusive access (`lock` on the mutex variant, `write` on the
read-write variant) or shared access (`read`) gives back exactly `v`:
construction followed by guarded access is the identity on the stored
value. -/
theorem cell_construct_then_guard_roundtrip :
    ∀ (α : Type) (v : α),
      (PyMutex.new v).lock = CellOutcome.acquired (v, ⟨⟨v, BorrowFlag.writing⟩⟩) ∧
      (PyRwLock.new v).read = CellOutcome.acquired (v, ⟨⟨v, BorrowFlag.reading 1⟩⟩) ∧
      (PyRwLock.new v).write = CellOutcome.acquired (v, ⟨⟨v, BorrowFlag.writing⟩⟩) :=
  fun _ _ => ⟨rfl, rfl, rfl⟩

/-- C9: each call to `bytes_iter` allocates a brand-new cursor cell starting
at zero, owned by that iterator alone: two iterators `itA`, `itB` built by
successive calls over the same buffer have distinct cells both reading `0`;
driving `itA` for `length` steps yields exactly the buffer's bytes in index
order and then `iterNext` is exhausted (`none`); and after fully consuming
`itA`, driving `itB` still yields the whole buffer — the instances advance
independently. -/
theorem bytes_iter_fresh_cursor_independent_in_order
    (obj : List Nat) (st : CellStore) (itA : PyIteratorValue) (st1 : CellStore)
    (itB : PyIteratorValue) (st2 : CellStore)
    (hA : bytes_iter obj st = (itA, st1)) (hB : bytes_iter obj st1 = (itB, st2)) :
    st2.get itA.position = 0 ∧
    st2.get itB.position = 0 ∧
    itA.position ≠ itB.position ∧
    (iterCollect obj.length itA st2).1 = obj ∧
    (iterNext itA (iterCollect obj.length itA st2).2).1 = none ∧
    (iterCollect obj.length itB (iterCollect obj.length itA st2).2).1 = obj := by
  simp only [bytes_iter, CellStore.alloc, Prod.mk.injEq] at hA hB
  obtain ⟨hA1, hA2⟩ := hA
  subst hA1
  subst hA2
  obtain ⟨hB1, hB2⟩ := hB
  subst hB1
  subst hB2
  have g1 : CellStore.get ⟨st.cells ++ [0] ++ [0]⟩ st.cells.length = 0 := by
    show ((st.cells ++ [0]) ++ [0]).getD st.cells.length 0 = 0
    rw [getD_append_lt _ _ _ (by simp), getD_append_length]
  have g2 : CellStore.get ⟨st.cells ++ [0] ++ [0]⟩ (st.cells ++ [0]).length = 0 :=
    getD_append_length (st.cells ++ [0]) 0
  have hcidA : st.cells.length < (⟨st.cells ++ [0] ++ [0]⟩ : CellStore).cells.length := by
    simp
  obtain ⟨c1, c2, c3, c4⟩ :=
    iterCollect_spec obj.length obj st.cells.length 0 ⟨st.cells ++ [0] ++ [0]⟩
      hcidA g1 (by omega)
  have hposA : ((iterCollect obj.length ⟨st.cells.length, obj⟩
      ⟨st.cells ++ [0] ++ [0]⟩).2).get st.cells.length = obj.length := by
    rw [c3]
    omega
  refine ⟨g1, g2, by simp, c1.trans (List.drop_zero obj), ?_, ?_⟩
  · simp only [iterNext]
    rw [hposA]
    simp
  · have hcidB : (st.cells ++ [0]).length <
        ((iterCollect obj.length ⟨st.cells.length, obj⟩
          ⟨st.cells ++ [0] ++ [0]⟩).2).cells.length := by
      rw [c2]
      simp
    have hpB : ((iterCollect obj.length ⟨st.cells.length, obj⟩
        ⟨st.cells ++ [0] ++ [0]⟩).2).get (st.cells ++ [0]).length = 0 := by
      exact (c4 (st.cells ++ [0]).length (by simp)).trans g2
    obtain ⟨d1, _, _, _⟩ :=
      iterCollect_spec obj.length obj (st.cells ++ [0]).length 0
        ((iterCollect obj.length ⟨st.cells.length, obj⟩ ⟨st.cells ++ [0] ++ [0]⟩).2)
        hcidB hpB (by omega)
    exact d1.trans (List.drop_zero obj)

/-- C9 witness: two successive iterators over the buffer `[104, 105]`
starting from the empty cell store: cells 0 and 1, both reading 0, each
yielding `[104, 105]` independently. -/
theorem bytes_iter_fresh_cursor_independent_in_order_witness :
    bytes_iter [104, 105] ⟨[]⟩ = (⟨0, [104, 105]⟩, ⟨[0]⟩) ∧
    bytes_iter [104, 105] ⟨[0]⟩ = (⟨1, [104, 105]⟩, ⟨[0, 0]⟩) ∧
    ((⟨[0, 0]⟩ : CellStore).get (0 : Nat) = 0 ∧
     (⟨[0, 0]⟩ : CellStore).get (1 : Nat) = 0 ∧
     (0 : Nat) ≠ 1 ∧
     (iterCollect 2 ⟨0, [104, 105]⟩ ⟨[0, 0]⟩).1 = [104, 105] ∧
     (iterNext ⟨0, [104, 105]⟩ (iterCollect 2 ⟨0, [104, 105]⟩ ⟨[0, 0]⟩).2).1 = none ∧
     (iterCollect 2 ⟨1, [104, 105]⟩ (iterCollect 2 ⟨0, [104, 105]⟩ ⟨[0, 0]⟩).2).1 = [104, 105]) :=
  ⟨rfl, rfl,
    bytes_iter_fresh_cursor_independent_in_order [104, 105] ⟨[]⟩
      ⟨0, [104, 105]⟩ ⟨[0]⟩ ⟨1, [104, 105]⟩ ⟨[0, 0]⟩ rfl rfl⟩

end RustPython
